import Mathlib

/-!
Shallow embedding of `include/extractor/node_based_edge.hpp` from the
osrm-backend extractor: the packed classification flags, the shared
annotation record, the node-based edge record with its comparator, and the
OSM-tagged edge variant.  Machine integers are modelled as `Nat`/`Int`; a
conversion to `std::uint32_t` reduces modulo `2^32` where the source relies
on it.
-/

namespace Osrm

/-- `NodeID` (`util/typedefs.hpp`, not in the sources at hand): an internal
node identifier, an unsigned 32-bit integer, modelled as `Nat`. -/
abbrev NodeID := Nat

/-- `EdgeWeight` (`util/typedefs.hpp`): a signed integer cost, modelled as
`Int`. -/
abbrev EdgeWeight := Int

/-- `EdgeDuration` (`util/typedefs.hpp`): an integer duration, modelled as
`Int`. -/
abbrev EdgeDuration := Int

/-- `GeometryID` (`util/typedefs.hpp`): a reference into an external geometry
table; the edge code never inspects it, so it is modelled as `Nat`. -/
abbrev GeometryID := Nat

/-- `using AnnotationID = std::uint32_t;` — an index into the annotation
table, modelled as `Nat` (values below `2^32`). -/
abbrev AnnotationID := Nat

/-- `NameID` (`util/typedefs.hpp`): unsigned 32-bit name identifier. -/
abbrev NameID := Nat

/-- `TravelMode` (`extractor/travel_mode.hpp`): a small enumerated value
stored in 4 bits, modelled as `Nat`. -/
abbrev TravelMode := Nat

/-- `ClassData` (`extractor/class_data.hpp`): an 8-bit class bitset,
modelled as `Nat`. -/
abbrev ClassData := Nat

/-- `LaneDescriptionID` (`util/typedefs.hpp`): unsigned 16-bit identifier. -/
abbrev LaneDescriptionID := Nat

/-- `OSMNodeID` (`util/typedefs.hpp`): the external 64-bit node identifier
from the raw geographic source, modelled as `Nat`. -/
abbrev OSMNodeID := Nat

/-- Modelled from the spec: `SPECIAL_NODEID` lives in `util/typedefs.hpp`,
which is not among the sources at hand; it is the special/invalid node
identifier, the maximum representable 32-bit value. -/
def SPECIAL_NODEID : NodeID := 2 ^ 32 - 1

/-- Modelled from the spec: `MIN_OSM_NODEID` lives in `util/typedefs.hpp`,
which is not among the sources at hand; the minimal external identifier. -/
def MIN_OSM_NODEID : OSMNodeID := 0

/-- Conversion of a signed value to `std::uint32_t`: C++ reduces the value
modulo `2^32`. -/
def uint32OfInt (i : Int) : Nat := (i % (2 ^ 32 : Int)).toNat

/-- Modelled from the spec: `guidance::RoadClassification`
(`extractor/guidance/road_classification.hpp`) is not among the sources at
hand.  The spec describes it as a small packed road-classification value
with equality; it is modelled as an opaque packed payload. -/
structure RoadClassification where
  data : Nat
deriving DecidableEq, Repr

/-- Modelled from the spec: the default-constructed (unclassified) road
classification. -/
def RoadClassification.unclassified : RoadClassification := ⟨0⟩

/-- `NodeBasedEdgeClassification`: the seven 1-bit flags plus the packed
road classification, exactly the fields of the C++ struct. -/
structure NodeBasedEdgeClassification where
  forward : Bool
  backward : Bool
  is_split : Bool
  roundabout : Bool
  circular : Bool
  startpoint : Bool
  restricted : Bool
  road_classification : RoadClassification
deriving DecidableEq, Repr

namespace NodeBasedEdgeClassification

/-- The default constructor `NodeBasedEdgeClassification()`: the seven flag
bits are set to `false`; `road_classification` is a class member and is
default-constructed (unclassified). -/
def default : NodeBasedEdgeClassification :=
  { forward := false, backward := false, is_split := false, roundabout := false
    circular := false, startpoint := false, restricted := false
    road_classification := RoadClassification.unclassified }

/-- `NodeBasedEdgeClassification::CanCombineWith`.  In the C++ source the
middle conjunct is written `(is_split) == (other.is_split)`; since `==`
binds tighter than `&&`, it is an ordinary comparison of the two bit-field
values, exactly like the other seven conjuncts. -/
def CanCombineWith (a other : NodeBasedEdgeClassification) : Bool :=
  (a.road_classification == other.road_classification) && (a.forward == other.forward) &&
    (a.backward == other.backward) && (a.is_split == other.is_split) &&
    (a.roundabout == other.roundabout) && (a.circular == other.circular) &&
    (a.startpoint == other.startpoint) && (a.restricted == other.restricted)

end NodeBasedEdgeClassification

/-- `NodeBasedEdgeAnnotation`: name identifier, travel mode, class bitset
and lane-description identifier. -/
structure NodeBasedEdgeAnnotation where
  name_id : NameID
  travel_mode : TravelMode
  classes : ClassData
  lane_description_id : LaneDescriptionID
deriving DecidableEq, Repr

/-- `NodeBasedEdgeAnnotation::CanCombineWith`:
`std::tie(name_id, classes) == std::tie(other.name_id, other.classes)`
together with equality of travel modes; `lane_description_id` does not
take part. -/
def annotCanCombineWith (a other : NodeBasedEdgeAnnotation) : Bool :=
  ((a.name_id, a.classes) == (other.name_id, other.classes)) &&
    (a.travel_mode == other.travel_mode)

/-- `NodeBasedEdge`: the resolved per-edge record with the seven fields of
the C++ struct.  The fields are typed with the underlying `Nat`/`Int`
carriers of `NodeID`, `EdgeWeight`, `EdgeDuration`, `GeometryID` and
`AnnotationID`. -/
structure NodeBasedEdge where
  source : Nat
  target : Nat
  weight : Int
  duration : Int
  geometry_id : Nat
  annotation_data : Nat
  flags : NodeBasedEdgeClassification
deriving DecidableEq, Repr

namespace NodeBasedEdge

/-- The default constructor `NodeBasedEdge()`: source and target are set to
`SPECIAL_NODEID`, weight and duration to `0`, and the annotation reference
to `-1` converted to `std::uint32_t`; `geometry_id` is left uninitialized
in the source and is therefore a parameter here; `flags` is a class member
and is default-constructed. -/
def defaultWith (g : GeometryID) : NodeBasedEdge :=
  { source := SPECIAL_NODEID, target := SPECIAL_NODEID, weight := 0, duration := 0
    geometry_id := g, annotation_data := uint32OfInt (-1)
    flags := NodeBasedEdgeClassification.default }

/-- `NodeBasedEdge::operator<`: lexicographic on source, target, weight,
with the fully-bidirectional tie-break at equal (source, target, weight). -/
def lt (a other : NodeBasedEdge) : Bool :=
  if a.source == other.source then
    if a.target == other.target then
      if a.weight == other.weight then
        a.flags.forward && a.flags.backward &&
          (!other.flags.forward || !other.flags.backward)
      else decide (a.weight < other.weight)
    else decide (a.target < other.target)
  else decide (a.source < other.source)

/-- Directionality rank used by the tie-break: a fully bidirectional record
ranks `0`, any other record ranks `1`. -/
def rank (a : NodeBasedEdge) : Nat :=
  if a.flags.forward && a.flags.backward then 0 else 1

/-- Two records are tied (mutually unordered) when they agree on source,
target and weight and the directionality tie-break does not separate them. -/
def tiedB (a b : NodeBasedEdge) : Bool :=
  (a.source == b.source) && (a.target == b.target) && (a.weight == b.weight) &&
    ((a.flags.forward && a.flags.backward) == (b.flags.forward && b.flags.backward))

end NodeBasedEdge

/-- `NodeBasedEdgeWithOSM` derives from `NodeBasedEdge` in the C++ source;
the base subobject is modelled as the embedded field `toNodeBasedEdge`, and
the two external 64-bit identifiers are the added fields. -/
structure NodeBasedEdgeWithOSM where
  toNodeBasedEdge : NodeBasedEdge
  osm_source_id : OSMNodeID
  osm_target_id : OSMNodeID
deriving DecidableEq, Repr

/-- The `NodeBasedEdgeWithOSM` constructor taking OSM source and target: it
constructs the base `NodeBasedEdge` with `SPECIAL_NODEID` endpoints and the
given weight, duration, geometry, annotation and flags, and stores the OSM
identifiers in the two added fields. -/
def mkNodeBasedEdgeWithOSM (source target : OSMNodeID) (weight : EdgeWeight)
    (duration : EdgeDuration) (geometry_id : GeometryID) (annotation_data : AnnotationID)
    (flags : NodeBasedEdgeClassification) : NodeBasedEdgeWithOSM :=
  { toNodeBasedEdge :=
      { source := SPECIAL_NODEID, target := SPECIAL_NODEID, weight := weight
        duration := duration, geometry_id := geometry_id, annotation_data := annotation_data
        flags := flags }
    osm_source_id := source, osm_target_id := target }

/-- Key lemma: the comparator is the lexicographic strict order on
(source, target, weight, directionality rank). -/
theorem lt_iff_lex (a b : NodeBasedEdge) :
    NodeBasedEdge.lt a b = true ↔
      a.source < b.source ∨
        (a.source = b.source ∧
          (a.target < b.target ∨
            (a.target = b.target ∧
              (a.weight < b.weight ∨
                (a.weight = b.weight ∧
                  NodeBasedEdge.rank a < NodeBasedEdge.rank b))))) := by
  unfold NodeBasedEdge.lt NodeBasedEdge.rank
  by_cases hs : a.source = b.source
  · by_cases ht : a.target = b.target
    · by_cases hw : a.weight = b.weight
      · simp [hs, ht, hw]
        cases haf : a.flags.forward <;> cases hab : a.flags.backward <;>
          cases hbf : b.flags.forward <;> cases hbb : b.flags.backward <;> simp
      · simp [hs, ht, hw]
    · simp [hs, ht]
  · simp [hs]

/-- Shared unfolding of the flag combinability predicate into field
equalities. -/
theorem canCombine_iff (a b : NodeBasedEdgeClassification) :
    NodeBasedEdgeClassification.CanCombineWith a b = true ↔
      (a.road_classification = b.road_classification ∧ a.forward = b.forward ∧
        a.backward = b.backward ∧ a.is_split = b.is_split ∧
        a.roundabout = b.roundabout ∧ a.circular = b.circular ∧
        a.startpoint = b.startpoint ∧ a.restricted = b.restricted) := by
  unfold NodeBasedEdgeClassification.CanCombineWith
  simp [Bool.and_eq_true, and_assoc]

/-- C1: the comparator holds iff source is smaller, or sources equal and
target smaller, or sources and targets equal and weight smaller, or
(source, target, weight) all equal and the left record has both `forward`
and `backward` set while the right one has at least one of them unset; in
particular a fully bidirectional record sorts strictly before a
one-directional one at identical (source, target, weight). -/
theorem C1_comparator_iff (a b : NodeBasedEdge) :
    NodeBasedEdge.lt a b = true ↔
      a.source < b.source ∨
        (a.source = b.source ∧ a.target < b.target) ∨
        (a.source = b.source ∧ a.target = b.target ∧ a.weight < b.weight) ∨
        (a.source = b.source ∧ a.target = b.target ∧ a.weight = b.weight ∧
          a.flags.forward = true ∧ a.flags.backward = true ∧
          (b.flags.forward = false ∨ b.flags.backward = false)) := by
  unfold NodeBasedEdge.lt
  by_cases hs : a.source = b.source
  · by_cases ht : a.target = b.target
    · by_cases hw : a.weight = b.weight
      · simp [hs, ht, hw]
        cases haf : a.flags.forward <;> cases hab : a.flags.backward <;>
          cases hbf : b.flags.forward <;> cases hbb : b.flags.backward <;> simp
      · simp [hs, ht, hw]
    · simp [hs, ht]
  · simp [hs]

/-- C2: the flag combinability predicate holds iff road classification,
`forward`, `backward`, `roundabout`, `circular`, `startpoint`, `restricted`
and `is_split` each compare equal pairwise; as a Bool-valued function of the
two values it is a pure comparison with no side effects. -/
theorem C2_flags_combinable_iff (a b : NodeBasedEdgeClassification) :
    NodeBasedEdgeClassification.CanCombineWith a b = true ↔
      (a.road_classification = b.road_classification ∧ a.forward = b.forward ∧
        a.backward = b.backward ∧ a.roundabout = b.roundabout ∧
        a.circular = b.circular ∧ a.startpoint = b.startpoint ∧
        a.restricted = b.restricted ∧ a.is_split = b.is_split) :=
  (canCombine_iff a b).trans (by tauto)

/-- Two concrete flag values that agree on everything except `is_split`:
used to refute the claim that the split-edge comparison is vacuous. -/
def flagsSplitTrue : NodeBasedEdgeClassification :=
  { forward := true, backward := false, is_split := true, roundabout := false
    circular := false, startpoint := false, restricted := false
    road_classification := RoadClassification.unclassified }

/-- Same as `flagsSplitTrue` but with `is_split := false`. -/
def flagsSplitFalse : NodeBasedEdgeClassification :=
  { forward := true, backward := false, is_split := false, roundabout := false
    circular := false, startpoint := false, restricted := false
    road_classification := RoadClassification.unclassified }

/-- C3 counterexample: two flag values that agree on road classification,
`forward`, `backward`, `roundabout`, `circular`, `startpoint` and
`restricted` but differ in `is_split` are NOT combinable — `==` binds
tighter than `&&` in C++, so `(is_split) == (other.is_split)` compares the
two bit-field values and the claimed always-true comparison does not occur. -/
theorem C3_counterexample :
    flagsSplitTrue.road_classification = flagsSplitFalse.road_classification ∧
    flagsSplitTrue.forward = flagsSplitFalse.forward ∧
    flagsSplitTrue.backward = flagsSplitFalse.backward ∧
    flagsSplitTrue.roundabout = flagsSplitFalse.roundabout ∧
    flagsSplitTrue.circular = flagsSplitFalse.circular ∧
    flagsSplitTrue.startpoint = flagsSplitFalse.startpoint ∧
    flagsSplitTrue.restricted = flagsSplitFalse.restricted ∧
    flagsSplitTrue.is_split ≠ flagsSplitFalse.is_split ∧
    NodeBasedEdgeClassification.CanCombineWith flagsSplitTrue flagsSplitFalse =
      false := by
  decide

/-- C3 amended: the split-edge conjunct compares the actual `is_split`
values; every pair of flag values that agree on the other seven fields but
differ in `is_split` is NOT combinable. -/
theorem C3_is_split_gates_merge (a b : NodeBasedEdgeClassification)
    (hrc : a.road_classification = b.road_classification)
    (hf : a.forward = b.forward) (hb : a.backward = b.backward)
    (hro : a.roundabout = b.roundabout) (hc : a.circular = b.circular)
    (hsp : a.startpoint = b.startpoint) (hre : a.restricted = b.restricted)
    (hs : a.is_split ≠ b.is_split) :
    NodeBasedEdgeClassification.CanCombineWith a b = false := by
  rw [← Bool.not_eq_true, canCombine_iff]
  intro h
  exact hs h.2.2.2.1

/-- Witness for C3's amended theorem at the concrete pair of flag values. -/
theorem C3_is_split_gates_merge_witness :
    NodeBasedEdgeClassification.CanCombineWith flagsSplitTrue flagsSplitFalse =
      false :=
  C3_is_split_gates_merge flagsSplitTrue flagsSplitFalse rfl rfl rfl rfl rfl
    rfl rfl (by decide)

/-- C4: two annotation records are combinable iff they agree on name
identifier, class bitset and travel mode; the lane-description identifier
does not take part, so records differing only there are combinable. -/
theorem C4_annot_combinable_iff (a b : NodeBasedEdgeAnnotation) :
    annotCanCombineWith a b = true ↔
      (a.name_id = b.name_id ∧ a.classes = b.classes ∧
        a.travel_mode = b.travel_mode) := by
  unfold annotCanCombineWith
  simp [Prod.ext_iff, and_assoc]

/-- C9: the default-constructed classification flags have all seven boolean
attributes `false` and the unclassified road classification. -/
theorem C9_default_flags :
    NodeBasedEdgeClassification.default.forward = false ∧
    NodeBasedEdgeClassification.default.backward = false ∧
    NodeBasedEdgeClassification.default.is_split = false ∧
    NodeBasedEdgeClassification.default.roundabout = false ∧
    NodeBasedEdgeClassification.default.circular = false ∧
    NodeBasedEdgeClassification.default.startpoint = false ∧
    NodeBasedEdgeClassification.default.restricted = false ∧
    NodeBasedEdgeClassification.default.road_classification =
      RoadClassification.unclassified := by
  decide

/-- The directionality rank is determined by the `forward`/`backward` pair:
ranks agree exactly when the conjunction of the two flags agrees. -/
theorem rank_eq_iff (a b : NodeBasedEdge) :
    NodeBasedEdge.rank a = NodeBasedEdge.rank b ↔
      (a.flags.forward && a.flags.backward) =
        (b.flags.forward && b.flags.backward) := by
  unfold NodeBasedEdge.rank
  cases a.flags.forward && a.flags.backward <;>
    cases b.flags.forward && b.flags.backward <;> simp

/-- Unfolding of the tie predicate: equal source, target, weight and equal
directionality rank. -/
theorem tiedB_iff (a b : NodeBasedEdge) :
    NodeBasedEdge.tiedB a b = true ↔
      (a.source = b.source ∧ a.target = b.target ∧ a.weight = b.weight ∧
        NodeBasedEdge.rank a = NodeBasedEdge.rank b) := by
  unfold NodeBasedEdge.tiedB
  simp [and_assoc, rank_eq_iff]

/-- C5: the comparator is a strict order that is total up to the
directionality tie: it is irreflexive, asymmetric and transitive, and any
two records not tied at equal (source, target, weight) with equal
directionality rank satisfy exactly one of `a < b`, `b < a` — so sorting
the same multiset twice yields the same order up to tied records. -/
theorem C5_strict_order (a b c : NodeBasedEdge) :
    NodeBasedEdge.lt a a = false ∧
    (NodeBasedEdge.lt a b = true → NodeBasedEdge.lt b a = false) ∧
    (NodeBasedEdge.lt a b = true → NodeBasedEdge.lt b c = true →
      NodeBasedEdge.lt a c = true) ∧
    (NodeBasedEdge.tiedB a b = false →
      (NodeBasedEdge.lt a b = true ↔ NodeBasedEdge.lt b a = false)) := by
  refine ⟨?_, ?_, ?_, ?_⟩
  · rw [← Bool.not_eq_true, lt_iff_lex]
    omega
  · intro h1
    rw [lt_iff_lex] at h1
    rw [← Bool.not_eq_true, lt_iff_lex]
    omega
  · intro h1 h2
    rw [lt_iff_lex] at h1 h2
    rw [lt_iff_lex]
    omega
  · intro hnt
    have hP : ¬ (a.source = b.source ∧ a.target = b.target ∧
        a.weight = b.weight ∧ NodeBasedEdge.rank a = NodeBasedEdge.rank b) := by
      rw [← tiedB_iff, hnt]
      simp
    rw [lt_iff_lex]
    rw [show (NodeBasedEdge.lt b a = false) ↔ ¬ (NodeBasedEdge.lt b a = true) by
      simp]
    rw [lt_iff_lex]
    omega

/-- Fully bidirectional flags, otherwise default. -/
def flagsBidir : NodeBasedEdgeClassification :=
  { forward := true, backward := true, is_split := false, roundabout := false
    circular := false, startpoint := false, restricted := false
    road_classification := RoadClassification.unclassified }

/-- Forward-only flags, otherwise default. -/
def flagsFwdOnly : NodeBasedEdgeClassification :=
  { forward := true, backward := false, is_split := false, roundabout := false
    circular := false, startpoint := false, restricted := false
    road_classification := RoadClassification.unclassified }

/-- Bidirectional flags with different auxiliary bits and classification:
agrees with `flagsBidir` on `forward`/`backward` only. -/
def flagsBidirVar : NodeBasedEdgeClassification :=
  { forward := true, backward := true, is_split := true, roundabout := true
    circular := true, startpoint := true, restricted := true
    road_classification := ⟨3⟩ }

/-- A concrete bidirectional edge record. -/
def edgeA : NodeBasedEdge :=
  { source := 1, target := 2, weight := 10, duration := 4, geometry_id := 0
    annotation_data := 0, flags := flagsBidir }

/-- A concrete forward-only edge record with the same (source, target,
weight) as `edgeA`. -/
def edgeB : NodeBasedEdge :=
  { source := 1, target := 2, weight := 10, duration := 4, geometry_id := 0
    annotation_data := 0, flags := flagsFwdOnly }

/-- A concrete edge record with a larger source. -/
def edgeC : NodeBasedEdge :=
  { source := 2, target := 0, weight := -3, duration := 4, geometry_id := 0
    annotation_data := 0, flags := flagsFwdOnly }

/-- A copy of `edgeA` that differs in duration, geometry reference,
annotation reference and every classification bit outside
`forward`/`backward`. -/
def edgeAvar : NodeBasedEdge :=
  { source := 1, target := 2, weight := 10, duration := 99, geometry_id := 7
    annotation_data := 5, flags := flagsBidirVar }

/-- Witness for C5 at concrete records: irreflexivity at `edgeA`, asymmetry
and exact-one-direction for the untied pair (`edgeA`, `edgeB`), and
transitivity along `edgeA < edgeB < edgeC`. -/
theorem C5_strict_order_witness :
    NodeBasedEdge.lt edgeA edgeA = false ∧
    NodeBasedEdge.lt edgeB edgeA = false ∧
    NodeBasedEdge.lt edgeA edgeC = true ∧
    (NodeBasedEdge.lt edgeA edgeB = true ↔
      NodeBasedEdge.lt edgeB edgeA = false) :=
  ⟨(C5_strict_order edgeA edgeB edgeC).1,
    (C5_strict_order edgeA edgeB edgeC).2.1 (by decide),
    (C5_strict_order edgeA edgeB edgeC).2.2.1 (by decide) (by decide),
    (C5_strict_order edgeA edgeB edgeC).2.2.2 (by decide)⟩

/-- C7: the default-constructed edge record stores `-1` converted to
`std::uint32_t` as its annotation reference, which is `2^32 - 1`, the
maximum value `uint32OfInt` can produce; source and target are the
special/invalid node identifier and weight and duration are zero.
`geometry_id` is left uninitialized by the C++ constructor and is the
parameter `g`. -/
theorem C7_default_edge (g : GeometryID) :
    uint32OfInt (-1) = 2 ^ 32 - 1 ∧
    (∀ i : Int, uint32OfInt i ≤ 2 ^ 32 - 1) ∧
    (NodeBasedEdge.defaultWith g).annotation_data = 2 ^ 32 - 1 ∧
    (NodeBasedEdge.defaultWith g).source = SPECIAL_NODEID ∧
    (NodeBasedEdge.defaultWith g).target = SPECIAL_NODEID ∧
    (NodeBasedEdge.defaultWith g).weight = 0 ∧
    (NodeBasedEdge.defaultWith g).duration = 0 := by
  have hmax : ∀ i : Int, uint32OfInt i ≤ 2 ^ 32 - 1 := by
    intro i
    have h1 : 0 ≤ i % (2 ^ 32 : Int) := Int.emod_nonneg i (by norm_num)
    have h2 : i % (2 ^ 32 : Int) < 2 ^ 32 := Int.emod_lt_of_pos i (by norm_num)
    unfold uint32OfInt
    omega
  have hneg : uint32OfInt (-1) = 2 ^ 32 - 1 := by decide
  exact ⟨hneg, hmax, hneg, rfl, rfl, rfl, rfl⟩

/-- C8 counterexample: constructing the OSM-tagged record from OSM
identifiers 5 and 7 does not replace the internal node identifiers — the
value still contains a whole plain `NodeBasedEdge` (the C++ declaration is
`struct NodeBasedEdgeWithOSM : NodeBasedEdge`, implementation inheritance)
whose source and target are set to `SPECIAL_NODEID`, not to the given OSM
identifiers. -/
theorem C8_counterexample :
    (mkNodeBasedEdgeWithOSM 5 7 10 20 0 3
        NodeBasedEdgeClassification.default).toNodeBasedEdge.source ≠ 5 ∧
    (mkNodeBasedEdgeWithOSM 5 7 10 20 0 3
        NodeBasedEdgeClassification.default).toNodeBasedEdge.target ≠ 7 ∧
    (mkNodeBasedEdgeWithOSM 5 7 10 20 0 3
        NodeBasedEdgeClassification.default).toNodeBasedEdge.source =
      SPECIAL_NODEID ∧
    (mkNodeBasedEdgeWithOSM 5 7 10 20 0 3
        NodeBasedEdgeClassification.default).toNodeBasedEdge.target =
      SPECIAL_NODEID := by
  decide

/-- C8 amended: the OSM-tagged record keeps the plain record as an embedded
base (implementation inheritance) and adds the two external 64-bit
identifiers: the constructor stores the OSM identifiers in the added
fields, sets the inherited internal source and target to the invalid node
identifier, and carries weight, duration, geometry reference, annotation
reference and flags through the inherited plain record. -/
theorem C8_osm_record_fields (s t : OSMNodeID) (w : EdgeWeight)
    (d : EdgeDuration) (g : GeometryID) (an : AnnotationID)
    (f : NodeBasedEdgeClassification) :
    (mkNodeBasedEdgeWithOSM s t w d g an f).osm_source_id = s ∧
    (mkNodeBasedEdgeWithOSM s t w d g an f).osm_target_id = t ∧
    (mkNodeBasedEdgeWithOSM s t w d g an f).toNodeBasedEdge.source =
      SPECIAL_NODEID ∧
    (mkNodeBasedEdgeWithOSM s t w d g an f).toNodeBasedEdge.target =
      SPECIAL_NODEID ∧
    (mkNodeBasedEdgeWithOSM s t w d g an f).toNodeBasedEdge.weight = w ∧
    (mkNodeBasedEdgeWithOSM s t w d g an f).toNodeBasedEdge.duration = d ∧
    (mkNodeBasedEdgeWithOSM s t w d g an f).toNodeBasedEdge.geometry_id = g ∧
    (mkNodeBasedEdgeWithOSM s t w d g an f).toNodeBasedEdge.annotation_data =
      an ∧
    (mkNodeBasedEdgeWithOSM s t w d g an f).toNodeBasedEdge.flags = f :=
  ⟨rfl, rfl, rfl, rfl, rfl, rfl, rfl, rfl, rfl⟩

/-- The five fields the comparator reads from each record. -/
def NodeBasedEdge.ordKey (a : NodeBasedEdge) : Nat × Nat × Int × Bool × Bool :=
  (a.source, a.target, a.weight, a.flags.forward, a.flags.backward)

/-- C10: the comparator depends only on the (source, target, weight,
forward, backward) key of each argument — durations, geometry references,
annotation references and the remaining classification bits are
irrelevant — and two records with equal keys are mutually unordered. -/
theorem C10_comparator_key_only (a a' b b' : NodeBasedEdge)
    (ha : NodeBasedEdge.ordKey a = NodeBasedEdge.ordKey a')
    (hb : NodeBasedEdge.ordKey b = NodeBasedEdge.ordKey b') :
    NodeBasedEdge.lt a b = NodeBasedEdge.lt a' b' ∧
      (NodeBasedEdge.ordKey a = NodeBasedEdge.ordKey b →
        NodeBasedEdge.lt a b = false ∧ NodeBasedEdge.lt b a = false) := by
  obtain ⟨ha1, ha2, ha3, ha4, ha5⟩ :
      a.source = a'.source ∧ a.target = a'.target ∧ a.weight = a'.weight ∧
        a.flags.forward = a'.flags.forward ∧
        a.flags.backward = a'.flags.backward := by
    simpa [NodeBasedEdge.ordKey, Prod.ext_iff, and_assoc] using ha
  obtain ⟨hb1, hb2, hb3, hb4, hb5⟩ :
      b.source = b'.source ∧ b.target = b'.target ∧ b.weight = b'.weight ∧
        b.flags.forward = b'.flags.forward ∧
        b.flags.backward = b'.flags.backward := by
    simpa [NodeBasedEdge.ordKey, Prod.ext_iff, and_assoc] using hb
  constructor
  · unfold NodeBasedEdge.lt
    rw [ha1, ha2, ha3, ha4, ha5, hb1, hb2, hb3, hb4, hb5]
  · intro hk
    obtain ⟨hk1, hk2, hk3, hk4, hk5⟩ :
        a.source = b.source ∧ a.target = b.target ∧ a.weight = b.weight ∧
          a.flags.forward = b.flags.forward ∧
          a.flags.backward = b.flags.backward := by
      simpa [NodeBasedEdge.ordKey, Prod.ext_iff, and_assoc] using hk
    have hr : NodeBasedEdge.rank a = NodeBasedEdge.rank b := by
      unfold NodeBasedEdge.rank
      rw [hk4, hk5]
    constructor
    · rw [← Bool.not_eq_true, lt_iff_lex]
      omega
    · rw [← Bool.not_eq_true, lt_iff_lex]
      omega

/-- Witness for C10 at concrete records: `edgeA` and `edgeAvar` share the
five-field key but differ in duration, geometry reference, annotation
reference and the other classification bits, and are mutually unordered. -/
theorem C10_comparator_key_only_witness :
    NodeBasedEdge.lt edgeA edgeAvar = false ∧
      NodeBasedEdge.lt edgeAvar edgeA = false :=
  (C10_comparator_key_only edgeA edgeAvar edgeAvar edgeA rfl rfl).2 rfl

end Osrm
